import Mathlib

set_option linter.unusedVariables false

namespace Starlight

/-- Wrap an unbounded integer into the two's-complement range of a signed
64-bit machine word, mirroring Go's int64 overflow behaviour
(xlm.Amount and xdr.SequenceNumber are int64). -/
def wrap64 (x : Int) : Int :=
  (x + 2 ^ 63) % 2 ^ 64 - 2 ^ 63

theorem wrap64_eq_of_range (x : Int) (h1 : -(2 ^ 63) ≤ x) (h2 : x < 2 ^ 63) :
    wrap64 x = x := by
  unfold wrap64
  omega

/-- Error values of the agent package (the var block at the top of
agent.go), plus fsm.ErrChannelExists, which handleMsg inspects.
errors.Wrap and errors.Wrapf are modelled by the wrap constructor; the
wrapping message text is not tracked, only the error chain. -/
inductive Err where
  | acctsSame
  | alreadyConfigured
  | channelExists
  | insufficientBalance
  | invalidEdit
  | invalidHorizonURL
  | invalidPassword
  | invalidUsername
  | notConfigured
  | notFunded
  | passwordsDontMatch
  | accountNotFound
  | emptyAddress
  | emptyAmount
  | noChannelSpecified
  | insufficientFunds
  | fsmChannelExists
  | wrap (e : Err)
  deriving DecidableEq

/-- errors.Root: strip all wrapping layers from an error. -/
def Err.root : Err → Err
  | .wrap e => e.root
  | .acctsSame => .acctsSame
  | .alreadyConfigured => .alreadyConfigured
  | .channelExists => .channelExists
  | .insufficientBalance => .insufficientBalance
  | .invalidEdit => .invalidEdit
  | .invalidHorizonURL => .invalidHorizonURL
  | .invalidPassword => .invalidPassword
  | .invalidUsername => .invalidUsername
  | .notConfigured => .notConfigured
  | .notFunded => .notFunded
  | .passwordsDontMatch => .passwordsDontMatch
  | .accountNotFound => .accountNotFound
  | .emptyAddress => .emptyAddress
  | .emptyAmount => .emptyAmount
  | .noChannelSpecified => .noChannelSpecified
  | .insufficientFunds => .insufficientFunds
  | .fsmChannelExists => .fsmChannelExists

/-- Response of the federation endpoint, as observed by the client:
the HTTP status and the two JSON fields when the lookup succeeds
(handleFed in agent.go). -/
structure FedResp where
  status : Nat
  stellarAddress : Option String
  accountId : Option String
  deriving DecidableEq

/-- handleFed (agent.go lines 938-960). username and primaryAcct are the
stored configuration read inside db.View; queryType, q and host come
from the request. A query type other than name gets 501 Not
Implemented; a q different from username*host gets 404; otherwise the
JSON object is written with the implicit 200 status, with
stellar_address set to q with the asterisk and host appended again,
exactly as the source does. -/
def handleFed (username primaryAcct queryType q host : String) : FedResp :=
  if queryType ≠ "name" then ⟨501, none, none⟩
  else if q ≠ username ++ "*" ++ host then ⟨404, none, none⟩
  else ⟨200, some (q ++ "*" ++ host), some primaryAcct⟩

/-- Claim C1, counterexample: with username alice, host example.com and
the matching query q = alice*example.com, the stellar_address field of
the response is not q, because handleFed appends the asterisk and the
host a second time. -/
theorem handleFed_c1_counterexample :
    (handleFed "alice" "GHOSTACCT" "name" "alice*example.com" "example.com").stellarAddress
      ≠ some "alice*example.com" := by decide

/-- Claim C1, amended: for a type=name request whose q equals the
configured username joined by an asterisk with the request host,
handleFed replies 200 with account_id equal to the primary account and
stellar_address equal to q with the asterisk and the host appended a
second time (not q itself); for every other q it replies 404. -/
theorem handleFed_c1_amended (username acct host q : String) :
    (q = username ++ "*" ++ host →
      handleFed username acct "name" q host = ⟨200, some (q ++ "*" ++ host), some acct⟩) ∧
    (q ≠ username ++ "*" ++ host →
      handleFed username acct "name" q host = ⟨404, none, none⟩) := by
  refine ⟨fun h => ?_, fun h => ?_⟩
  · unfold handleFed
    rw [if_neg (by decide), if_neg (not_not_intro h)]
  · unfold handleFed
    rw [if_neg (by decide), if_pos h]

/-- Claim C1, witness for the amended theorem at concrete inputs. -/
theorem handleFed_c1_amended_witness :
    handleFed "alice" "G1" "name" "alice*h" "h"
      = ⟨200, some ("alice*h" ++ "*" ++ "h"), some "G1"⟩ ∧
    handleFed "alice" "G1" "name" "bob*h" "h" = ⟨404, none, none⟩ :=
  ⟨(handleFed_c1_amended "alice" "G1" "h" "alice*h").1 (by decide),
   (handleFed_c1_amended "alice" "G1" "h" "bob*h").2 (by decide)⟩

/-- Role of the local node in a channel (fsm.Host or fsm.Guest). -/
inductive Role where
  | host
  | guest
  deriving DecidableEq

/-- The channel states enumerated by the fsm package (spec section 4.5).
Only Start is inspected by the code under verification. -/
inductive ChState where
  | start
  | settingUp
  | channelProposed
  | awaitingFunding
  | opened
  | paymentProposed
  | paymentAccepted
  | awaitingPaymentMerge
  | awaitingClose
  | awaitingCleanup
  | awaitingRatchet
  | awaitingSettlementMintime
  | awaitingSettlement
  | closed
  deriving DecidableEq

/-- fsm.WalletAcct: the persisted wallet record. Balance is an
xlm.Amount (int64, stroops) and Seqnum an xdr.SequenceNumber (int64),
both modelled as Int with wrap64 applied where the code does machine
arithmetic. -/
structure WalletAcct where
  balance : Int := 0
  seqnum : Int := 0
  cursor : String := ""
  address : String := ""
  deriving DecidableEq

/-- The fields of fsm.Channel that agent.go reads or writes. Account
identities are their address strings; durations and times are in
seconds since an arbitrary epoch. -/
structure Channel where
  id : String := ""
  role : Role := .host
  state : ChState := .start
  keyIndex : Nat := 0
  hostAcct : String := ""
  guestAcct : String := ""
  escrowAcct : String := ""
  hostRatchetAcct : String := ""
  guestRatchetAcct : String := ""
  hostAmount : Int := 0
  counterpartyAddress : String := ""
  remoteURL : String := ""
  roundNumber : Nat := 1
  maxRoundDuration : Int := 0
  finalityDelay : Int := 0
  channelFeerate : Int := 0
  hostFeerate : Int := 0
  fundingTime : Int := 0
  paymentTime : Int := 0
  passphrase : String := ""
  deriving DecidableEq

/-- Update records appended by putUpdate, reduced to the fields the
claims mention (update type, and account id with balance for account
updates). -/
inductive UpdateRec where
  | initRec (username horizonURL acctID : String)
  | configRec
  | accountRec (acctID : String) (balance : Int)
  | channelRec
  | txSuccessRec
  | warningRec
  deriving DecidableEq

/-- Task-basket tasks enrolled by addTxTask and addMsgTask. The
transaction envelope is an abstract identifier. -/
inductive TaskRec where
  | sendTx (bucket : String) (env : Nat)
  | sendMsg (remoteURL : String)
  deriving DecidableEq

/-- The durable store contents relevant to agent.go: the agent bucket
fields of the db package (config, encrypted seed, next key path index,
primary account, wallet, channels) plus the observable update log and
the task basket. -/
structure AgentState where
  username : String := ""
  pwType : String := ""
  pwHash : String := ""
  horizonURL : String := ""
  maxRoundDurMin : Int := 0
  finalityDelayMin : Int := 0
  channelFeerate : Int := 0
  hostFeerate : Int := 0
  keepAlive : Bool := false
  encryptedSeed : String := ""
  nextKeypathIndex : Nat := 0
  primaryAcct : String := ""
  wallet : WalletAcct := {}
  channels : List Channel := []
  updates : List UpdateRec := []
  tasks : List TaskRec := []
  deriving DecidableEq

/-- The Config struct of agent.go, as supplied to ConfigEdit. Feerates
are xlm.Amount values in stroops. -/
structure EditCfg where
  username : String := ""
  password : String := ""
  horizonURL : String := ""
  oldPassword : String := ""
  maxRoundDurMin : Int := 0
  finalityDelayMin : Int := 0
  channelFeerate : Int := 0
  hostFeerate : Int := 0
  keepAlive : Option Bool := none
  deriving DecidableEq

/-- ConfigEdit (agent.go lines 306-364). validURL models
worizon.ValidateTestnetURL, pwMatches models bcrypt.CompareHashAndPassword
on the stored hash and the supplied old password, hashPw models
bcrypt.GenerateFromPassword, and sealNew is the box produced by
sealBox for the new password. The db.Update body either commits all
its writes or, on error, commits none (spec section 4.1), which the
model expresses by returning the input state alongside the error. -/
def ConfigEdit (validURL : String → Bool) (pwMatches : String → String → Bool)
    (hashPw : String → String) (sealNew : String)
    (st : AgentState) (c : EditCfg) : AgentState × Except Err Unit :=
  if c.username ≠ "" then (st, .error .invalidEdit)
  else if 72 < c.password.length then (st, .error (.wrap .invalidPassword))
  else if c.password = "" ∧ c.horizonURL = "" then (st, .ok ())
  else if c.horizonURL ≠ "" ∧ ¬ validURL c.horizonURL then (st, .error .invalidHorizonURL)
  else if st.horizonURL = "" then (st, .error .notConfigured)
  else if c.password ≠ "" ∧ st.pwType ≠ "bcrypt" then (st, .ok ())
  else if c.password ≠ "" ∧ ¬ pwMatches st.pwHash c.oldPassword then
    (st, .error .passwordsDontMatch)
  else
    let st1 :=
      if c.password ≠ "" then
        { st with pwType := "bcrypt", pwHash := hashPw c.password,
                  encryptedSeed := sealNew,
                  updates := st.updates ++ [.configRec] }
      else st
    if c.horizonURL ≠ "" then
      ({ st1 with horizonURL := c.horizonURL,
                  updates := st1.updates ++ [.configRec] }, .ok ())
    else (st1, .ok ())

/-- A configured sample state used to evaluate the configuration entry
points at concrete inputs. -/
def cfgSampleState : AgentState :=
  { username := "alice", pwType := "bcrypt", pwHash := "h",
    horizonURL := "https://horizon-testnet.stellar.org" }

/-- Claim C3: the code contradicts the claim (and its own doc comment,
which says that attempting to change any field other than Password and
HorizonURL is an error). A Config whose only non-empty field is
MaxRoundDurMin is accepted: ConfigEdit returns success and silently
ignores the field, leaving the state unchanged, instead of returning
an error. Only a non-empty Username is rejected. -/
theorem configEdit_c3_forbidden_field_ignored :
    ConfigEdit (fun _ => false) (fun _ _ => false) (fun p => p) "sealed"
        cfgSampleState { maxRoundDurMin := 5 }
      = (cfgSampleState, .ok ()) ∧
    ConfigEdit (fun _ => false) (fun _ _ => false) (fun p => p) "sealed"
        cfgSampleState { username := "bob" }
      = (cfgSampleState, .error .invalidEdit) := by
  constructor <;> rfl

/-- An operation of a transaction observed by the wallet watcher, with
the fields watchWalletAcct reads. For an account-merge operation the
code reads the source-account balance from the transaction result at
the operation's index; the model carries that result value inside the
operation. All other operation types take the other constructor. -/
inductive OpBody where
  | createAccount (destination : String) (startingBalance : Int)
  | payment (destination : String) (assetNative : Bool) (amount : Int)
  | accountMerge (destination : String) (sourceAccountBalance : Int)
  | otherOp
  deriving DecidableEq

/-- A transaction delivered by the ledger stream, with the fields
watchWalletAcct reads: the result code (success or not), the envelope
source account, the ledger number (an int32, hence a Nat below two to
the thirty-first in practice), the paging token, and the operations. -/
structure WTx where
  success : Bool := true
  sourceAccount : String := ""
  ledger : Nat := 0
  pt : String := ""
  operations : List OpBody := []
  deriving DecidableEq

/-- One iteration of the operation loop of watchWalletAcct (agent.go
lines 409-487), acting on the wallet record and the update log.
acctID is the primary account, pt the transaction's paging token and
ledger its ledger number. A create-account for the primary account
replaces the whole wallet record (leaving the Address field at its
zero value, as the source's struct literal does); native payments and
account merges into the primary account add to the balance and advance
the cursor; everything else leaves the pair untouched. -/
def applyOp (acctID pt : String) (ledger : Nat)
    (s : WalletAcct × List UpdateRec) : OpBody → WalletAcct × List UpdateRec
  | .createAccount dest bal =>
    if dest ≠ acctID then s
    else
      ({ balance := bal, seqnum := wrap64 ((ledger : Int) * 2 ^ 32),
         cursor := pt, address := "" },
       s.2 ++ [.accountRec acctID bal])
  | .payment dest native amt =>
    if dest ≠ acctID then s
    else if ¬ native then s
    else
      let w := { s.1 with balance := wrap64 (s.1.balance + amt), cursor := pt }
      (w, s.2 ++ [.accountRec acctID w.balance])
  | .accountMerge dest srcBal =>
    if dest ≠ acctID then s
    else
      let w := { s.1 with balance := wrap64 (s.1.balance + srcBal), cursor := pt }
      (w, s.2 ++ [.accountRec acctID w.balance])
  | .otherOp => s

/-- The body of the StreamTxs callback of watchWalletAcct (agent.go
lines 389-491) for one delivered transaction: failed transactions are
dropped before any database update; otherwise a single db.Update first
logs a tx-success update (advancing the cursor) when the transaction
was sent by the primary account, then folds the operation loop over
the transaction's operations. -/
def processTx (acctID : String) (s : WalletAcct × List UpdateRec)
    (tx : WTx) : WalletAcct × List UpdateRec :=
  if ¬ tx.success then s
  else
    let s1 := if tx.sourceAccount = acctID
      then ({ s.1 with cursor := tx.pt }, s.2 ++ [.txSuccessRec])
      else s
    tx.operations.foldl (applyOp acctID tx.pt tx.ledger) s1

/-- Claim C6: a create-account operation whose destination is the
primary account sets the wallet record, inside the single durable
update modelled by processTx, to balance equal to the operation's
starting balance, sequence number equal to the ledger number shifted
left by 32 bits, and cursor equal to the transaction's paging token,
and appends one account-type update record; stated both for the
operation step and for a whole delivered transaction carrying that
operation. -/
theorem watchWalletAcct_c6_create_account (acctID pt : String) (ledger : Nat)
    (s : WalletAcct × List UpdateRec) (dest : String) (bal : Int)
    (hdest : dest = acctID) (hled : ledger < 2 ^ 31) :
    applyOp acctID pt ledger s (.createAccount dest bal)
      = (⟨bal, (ledger : Int) * 2 ^ 32, pt, ""⟩, s.2 ++ [.accountRec acctID bal]) ∧
    (∀ tx : WTx, tx.success = true → tx.sourceAccount ≠ acctID →
      tx.operations = [.createAccount dest bal] → tx.ledger = ledger → tx.pt = pt →
      processTx acctID s tx
        = (⟨bal, (ledger : Int) * 2 ^ 32, pt, ""⟩, s.2 ++ [.accountRec acctID bal])) := by
  have hw : wrap64 ((ledger : Int) * 2 ^ 32) = (ledger : Int) * 2 ^ 32 := by
    apply wrap64_eq_of_range <;> omega
  constructor
  · simp only [applyOp]
    rw [if_neg (not_not_intro hdest), hw]
  · intro tx hsucc hsrc hops hl hp
    unfold processTx
    rw [if_neg (by simp [hsucc]), if_neg hsrc, hops, hl, hp]
    simp only [List.foldl_cons, List.foldl_nil, applyOp]
    rw [if_neg (not_not_intro hdest), hw]

/-- Claim C6, witness at a concrete transaction. -/
theorem watchWalletAcct_c6_witness :
    applyOp "GA" "pt7" 9 ({ balance := 5, seqnum := 1, cursor := "c0" }, [])
        (.createAccount "GA" 1000)
      = (⟨1000, (9 : Int) * 2 ^ 32, "pt7", ""⟩, [.accountRec "GA" 1000]) ∧
    processTx "GA" ({ balance := 5, seqnum := 1, cursor := "c0" }, [])
        { success := true, sourceAccount := "GB", ledger := 9, pt := "pt7",
          operations := [.createAccount "GA" 1000] }
      = (⟨1000, (9 : Int) * 2 ^ 32, "pt7", ""⟩, [.accountRec "GA" 1000]) := by
  have h := watchWalletAcct_c6_create_account "GA" "pt7" 9
    ({ balance := 5, seqnum := 1, cursor := "c0" }, []) "GA" 1000 rfl (by decide)
  exact ⟨h.1, h.2 _ rfl (by decide) rfl rfl rfl⟩

/-- Claim C7: the watcher leaves the wallet record and update log
untouched for a transaction whose result code is not success, for any
operation whose destination is not the primary account, for a payment
operation in a non-native asset, and for any operation type other than
create-account, payment and account-merge. -/
theorem watchWalletAcct_c7_ignores (acctID pt : String) (ledger : Nat)
    (s : WalletAcct × List UpdateRec) :
    (∀ tx : WTx, tx.success = false → processTx acctID s tx = s) ∧
    (∀ dest bal, dest ≠ acctID →
      applyOp acctID pt ledger s (.createAccount dest bal) = s) ∧
    (∀ dest native amt, dest ≠ acctID →
      applyOp acctID pt ledger s (.payment dest native amt) = s) ∧
    (∀ dest amt,
      applyOp acctID pt ledger s (.payment dest false amt) = s) ∧
    (∀ dest srcBal, dest ≠ acctID →
      applyOp acctID pt ledger s (.accountMerge dest srcBal) = s) ∧
    applyOp acctID pt ledger s .otherOp = s := by
  refine ⟨fun tx hf => ?_, fun dest bal hd => ?_, fun dest native amt hd => ?_,
    fun dest amt => ?_, fun dest srcBal hd => ?_, rfl⟩
  · unfold processTx
    rw [if_pos (by simp [hf])]
  · simp only [applyOp]
    rw [if_pos hd]
  · simp only [applyOp]
    rw [if_pos hd]
  · simp only [applyOp]
    by_cases hd : dest ≠ acctID
    · rw [if_pos hd]
    · rw [if_neg hd, if_pos (by decide)]
  · simp only [applyOp]
    rw [if_pos hd]

/-- Claim C7, witness at concrete ignored inputs. -/
theorem watchWalletAcct_c7_witness :
    processTx "GA" ({ balance := 5 }, [])
        { success := false, sourceAccount := "GA", ledger := 3, pt := "p",
          operations := [.createAccount "GA" 1000] } = ({ balance := 5 }, []) ∧
    applyOp "GA" "p" 3 ({ balance := 5 }, []) (.createAccount "GB" 1000)
      = ({ balance := 5 }, []) ∧
    applyOp "GA" "p" 3 ({ balance := 5 }, []) (.payment "GB" true 7)
      = ({ balance := 5 }, []) ∧
    applyOp "GA" "p" 3 ({ balance := 5 }, []) (.payment "GA" false 7)
      = ({ balance := 5 }, []) ∧
    applyOp "GA" "p" 3 ({ balance := 5 }, []) (.accountMerge "GB" 7)
      = ({ balance := 5 }, []) ∧
    applyOp "GA" "p" 3 ({ balance := 5 }, []) .otherOp = ({ balance := 5 }, []) := by
  have h := watchWalletAcct_c7_ignores "GA" "p" 3 ({ balance := 5 }, [])
  exact ⟨h.1 _ rfl, h.2.1 "GB" 1000 (by decide), h.2.2.1 "GB" true 7 (by decide),
    h.2.2.2.1 "GA" 7, h.2.2.2.2.1 "GB" 7 (by decide), h.2.2.2.2.2⟩

/-- The whole agent as seen by ConfigInit: the in-memory seed field of
the Agent struct (g.seed, a plain Go struct field that database
rollbacks do not undo) together with the durable store. The seed's
entropy is abstracted to a Nat. -/
structure AgentMem where
  memSeed : Option Nat := none
  store : AgentState := {}
  deriving DecidableEq

/-- The defaults seeded by ConfigInit when the corresponding Config
field is zero (agent.go lines 591-596), in minutes and stroops. -/
def defaultMaxRoundDurMin : Int := 24 * 60
def defaultFinalityDelayMin : Int := 4 * 60
def defaultChannelFeerate : Int := 100000
def defaultHostFeerate : Int := 100

/-- ConfigInit (agent.go lines 218-301). validURL models
worizon.ValidateTestnetURL; validUser models validateUsername (defined
outside agent.go); hashPw models bcrypt.GenerateFromPassword; seal
models sealBox of the generated seed under the password; deriveP
models key.DeriveAccountPrimary, giving the primary account address;
genSeed is the entropy produced by randRead. The faucet request and
subsystem start are outside the durable state and not modelled. The
db.Update rolls back store writes on error, but the assignment to the
in-memory seed field before password validation is not a store write
and survives the rollback. -/
def ConfigInit (validURL validUser : String → Bool)
    (hashPw : String → String) (sealSeed : Nat → String → String)
    (deriveP : Nat → String) (genSeed : Nat)
    (g : AgentMem) (c : EditCfg) : AgentMem × Except Err Unit :=
  if ¬ validURL c.horizonURL then (g, .error .invalidHorizonURL)
  else if g.store.horizonURL ≠ "" then (g, .error .alreadyConfigured)
  else
    let g1 := { g with memSeed := some genSeed }
    let primary := deriveP genSeed
    if 72 < c.password.length then (g1, .error (.wrap .invalidPassword))
    else if c.password = "" then (g1, .error (.wrap .invalidPassword))
    else if ¬ validUser c.username then (g1, .error .invalidUsername)
    else
      let st := g.store
      let st1 : AgentState :=
        { st with
          username := c.username,
          pwType := "bcrypt",
          pwHash := hashPw c.password,
          horizonURL := c.horizonURL,
          encryptedSeed := sealSeed genSeed c.password,
          nextKeypathIndex := 1,
          primaryAcct := primary,
          maxRoundDurMin :=
            if c.maxRoundDurMin = 0 then defaultMaxRoundDurMin else c.maxRoundDurMin,
          finalityDelayMin :=
            if c.finalityDelayMin = 0 then defaultFinalityDelayMin else c.finalityDelayMin,
          channelFeerate :=
            if c.channelFeerate = 0 then defaultChannelFeerate else c.channelFeerate,
          hostFeerate :=
            if c.hostFeerate = 0 then defaultHostFeerate else c.hostFeerate,
          keepAlive := c.keepAlive.getD true,
          wallet := { balance := 0, seqnum := 0, cursor := "" },
          updates := st.updates ++ [.initRec c.username c.horizonURL primary] }
      ({ g1 with store := st1 }, .ok ())

/-- Claim C8, counterexample: calling ConfigInit on a fresh agent with
an empty password returns the invalid-password error and persists
nothing, but the agent does retain a generated seed: the in-memory
seed field, assigned before password validation, is left holding the
fresh entropy (here 7) because the database rollback does not undo
assignments to Go struct fields. -/
theorem configInit_c8_counterexample :
    (ConfigInit (fun _ => true) (fun _ => true) (fun p => p) (fun _ _ => "box")
        (fun _ => "GPRIMARY") 7 { memSeed := none, store := {} }
        { username := "alice", password := "", horizonURL := "https://h.test" }).1.memSeed
      = some 7 ∧
    (ConfigInit (fun _ => true) (fun _ => true) (fun p => p) (fun _ _ => "box")
        (fun _ => "GPRIMARY") 7 { memSeed := none, store := {} }
        { username := "alice", password := "", horizonURL := "https://h.test" }).2
      = .error (.wrap .invalidPassword) := by
  constructor <;> rfl

/-- Claim C8, amended: given a valid testnet URL and a not yet
configured agent, ConfigInit with an empty password or a password
longer than 72 bytes returns an invalid-password error and persists
nothing to the store; however the agent's in-memory seed field is
overwritten with the freshly generated seed before validation and is
not cleared on the error. -/
theorem configInit_c8_amended (validURL validUser : String → Bool)
    (hashPw : String → String) (sealSeed : Nat → String → String)
    (deriveP : Nat → String) (genSeed : Nat) (g : AgentMem) (c : EditCfg)
    (hurl : validURL c.horizonURL = true)
    (hconf : g.store.horizonURL = "")
    (hpw : c.password = "" ∨ 72 < c.password.length) :
    ConfigInit validURL validUser hashPw sealSeed deriveP genSeed g c
      = ({ g with memSeed := some genSeed }, .error (.wrap .invalidPassword)) := by
  unfold ConfigInit
  rw [if_neg (by simp [hurl]), if_neg (not_not_intro hconf)]
  rcases hpw with hpw | hpw
  · by_cases hlen : 72 < c.password.length
    · rw [if_pos hlen]
    · rw [if_neg hlen, if_pos hpw]
  · rw [if_pos hpw]

/-- Claim C8, witness for the amended theorem at a concrete overlong
password. -/
theorem configInit_c8_amended_witness :
    ConfigInit (fun _ => true) (fun _ => true) (fun p => p) (fun _ _ => "box")
        (fun _ => "GP") 9 { memSeed := none, store := {} }
        { username := "alice",
          password := String.mk (List.replicate 73 'x'),
          horizonURL := "https://h.test" }
      = ({ memSeed := some 9, store := {} }, .error (.wrap .invalidPassword)) :=
  configInit_c8_amended (fun _ => true) (fun _ => true) (fun p => p) (fun _ _ => "box")
    (fun _ => "GP") 9 { memSeed := none, store := {} }
    { username := "alice",
      password := String.mk (List.replicate 73 'x'),
      horizonURL := "https://h.test" }
    rfl rfl (Or.inr (by decide))

/-- The bucket name under which wallet transactions are enrolled in the
task basket (the walletBucket constant, defined outside agent.go). -/
def walletBucket : String := "wallet"

/-- DoWalletPay (agent.go lines 734-788). sign models the
b.Transaction build plus signing with the primary key: given the
sequence number the payment transaction will use, it returns the
signed envelope (abstracted to a Nat) or an error, in which case the
durable update rolls back. On success the wallet is debited by amount
plus the configured host feerate, the sequence number is bumped by
one, an account update is appended, and exactly one send-tx task is
enrolled. -/
def DoWalletPay (sign : Int → Except Err Nat)
    (st : AgentState) (dest : String) (amount : Int) : AgentState × Except Err Unit :=
  if dest = "" then (st, .error .emptyAddress)
  else if amount = 0 then (st, .error .emptyAmount)
  else if st.wallet.balance ≤ wrap64 (amount + st.hostFeerate) then
    (st, .error .insufficientFunds)
  else
    let b1 := wrap64 (st.wallet.balance - amount)
    let b2 := wrap64 (b1 - st.hostFeerate)
    let sq := wrap64 (st.wallet.seqnum + 1)
    match sign sq with
    | .error e => (st, .error e)
    | .ok env =>
      ({ st with
         wallet := { st.wallet with balance := b2, seqnum := sq },
         updates := st.updates ++ [.accountRec st.primaryAcct b2],
         tasks := st.tasks ++ [.sendTx walletBucket env] }, .ok ())

/-- Claim C10: with a non-empty destination and non-zero amount,
DoWalletPay fails with the insufficient-funds error unless the wallet
balance strictly exceeds amount plus the configured host feerate (a
balance exactly equal to amount plus fee is rejected); when the
balance does exceed it and signing succeeds, it debits amount plus the
fee, bumps the wallet sequence number by exactly one, and enrolls
exactly one signed payment task. The bound hypotheses keep the int64
arithmetic away from overflow so that wrap64 is the identity. -/
theorem doWalletPay_c10 (sign : Int → Except Err Nat)
    (st : AgentState) (dest : String) (amount env : Int)
    (hdest : dest ≠ "") (hamt : amount ≠ 0)
    (hb : -(2 ^ 61) ≤ st.wallet.balance ∧ st.wallet.balance ≤ 2 ^ 61)
    (ha : -(2 ^ 61) ≤ amount ∧ amount ≤ 2 ^ 61)
    (hf : -(2 ^ 61) ≤ st.hostFeerate ∧ st.hostFeerate ≤ 2 ^ 61)
    (hs : -(2 ^ 61) ≤ st.wallet.seqnum ∧ st.wallet.seqnum ≤ 2 ^ 61) :
    (st.wallet.balance ≤ amount + st.hostFeerate →
      DoWalletPay sign st dest amount = (st, .error .insufficientFunds)) ∧
    (∀ envN, amount + st.hostFeerate < st.wallet.balance →
      sign (st.wallet.seqnum + 1) = .ok envN →
      DoWalletPay sign st dest amount
        = ({ st with
             wallet := { st.wallet with
                         balance := st.wallet.balance - (amount + st.hostFeerate),
                         seqnum := st.wallet.seqnum + 1 },
             updates := st.updates
               ++ [.accountRec st.primaryAcct
                     (st.wallet.balance - (amount + st.hostFeerate))],
             tasks := st.tasks ++ [.sendTx walletBucket envN] }, .ok ())) := by
  have hw1 : wrap64 (amount + st.hostFeerate) = amount + st.hostFeerate := by
    apply wrap64_eq_of_range <;> omega
  have hw2 : wrap64 (st.wallet.balance - amount) = st.wallet.balance - amount := by
    apply wrap64_eq_of_range <;> omega
  have hw3 : wrap64 (st.wallet.balance - amount - st.hostFeerate)
      = st.wallet.balance - amount - st.hostFeerate := by
    apply wrap64_eq_of_range <;> omega
  have hw4 : wrap64 (st.wallet.seqnum + 1) = st.wallet.seqnum + 1 := by
    apply wrap64_eq_of_range <;> omega
  constructor
  · intro hle
    unfold DoWalletPay
    rw [if_neg hdest, if_neg hamt, if_pos (by rw [hw1]; exact hle)]
  · intro envN hgt hsign
    unfold DoWalletPay
    rw [if_neg hdest, if_neg hamt, if_neg (by rw [hw1]; omega)]
    simp only [hw2, hw3, hw4, hsign]
    have hbal : st.wallet.balance - amount - st.hostFeerate
        = st.wallet.balance - (amount + st.hostFeerate) := by ring
    rw [hbal]

/-- Claim C10, witness: balance 100, amount 60, fee 40 is rejected as
exactly equal; balance 101 succeeds, debiting 100 and bumping the
sequence number from 5 to 6 with a single enrolled task. -/
theorem doWalletPay_c10_witness :
    DoWalletPay (fun sq => .ok 42)
        { hostFeerate := 40, wallet := { balance := 100, seqnum := 5 } } "GDEST" 60
      = ({ hostFeerate := 40, wallet := { balance := 100, seqnum := 5 } },
         .error .insufficientFunds) ∧
    DoWalletPay (fun sq => .ok 42)
        { hostFeerate := 40, wallet := { balance := 101, seqnum := 5 } } "GDEST" 60
      = ({ hostFeerate := 40,
           wallet := { balance := 1, seqnum := 6 },
           updates := [.accountRec "" 1],
           tasks := [.sendTx walletBucket 42] }, .ok ()) := by
  constructor
  · exact (doWalletPay_c10 (fun _ => .ok 42)
      { hostFeerate := 40, wallet := { balance := 100, seqnum := 5 } } "GDEST" 60 42
      (by decide) (by decide) (by constructor <;> decide) (by constructor <;> decide)
      (by constructor <;> decide) (by constructor <;> decide)).1 (by decide)
  · exact (doWalletPay_c10 (fun _ => .ok 42)
      { hostFeerate := 40, wallet := { balance := 101, seqnum := 5 } } "GDEST" 60 42
      (by decide) (by decide) (by constructor <;> decide) (by constructor <;> decide)
      (by constructor <;> decide) (by constructor <;> decide)).2 42 (by decide) rfl

/-- checkChannelUnique (agent.go lines 598-610): whether some stored
channel has host and guest accounts equal to the unordered pair of the
two given addresses. -/
def channelPairExists (channels : List Channel) (a b : String) : Bool :=
  channels.any fun c =>
    (a = c.hostAcct && b = c.guestAcct) || (a = c.guestAcct && b = c.hostAcct)

/-- Modelled from the spec: getChannel of the db layer (not under
src), reading the channel record stored under the given ID; spec
section 3 describes channels as a mapping from channel ID to channel
record, and a missing record decodes to the zero channel, whose state
is the first FSM state, Start. -/
def getChannelState (channels : List Channel) (chanID : String) : ChState :=
  match channels.find? (fun c => c.id = chanID) with
  | some c => c.state
  | none => .start

/-- Modelled from the spec: putChannel of the db layer (not under
src), storing the channel record under its ID in the channel mapping
of spec section 3. -/
def putChannelRec (channels : List Channel) (ch : Channel) : List Channel :=
  channels.filter (fun c => c.id ≠ ch.id) ++ [ch]

/-- The ledger network passphrase returned by Agent.passphrase
(network.TestNetworkPassphrase). -/
def testNetworkPassphrase : String := "Test SDF Network ; September 2015"

/-- The channel record built by DoCreateChannel (agent.go lines
653-712) before the reserve debit: derive is the key-derivation map
from key path index to account address (key.DeriveAccount under the
agent's seed), now is the ledger client's current time, and the
configuration and primary account are read from the store. The three
key indices are consumed starting at the stored next key path index,
a uint32. -/
def mkChannel (derive : Nat → String) (now : Int) (st : AgentState)
    (guestFedAddr : String) (hostAmount : Int) (guestAcctStr starlightURL : String) :
    Channel :=
  let i := st.nextKeypathIndex
  { id := derive i,
    role := .host,
    state := .start,
    keyIndex := i,
    hostAcct := st.primaryAcct,
    guestAcct := guestAcctStr,
    escrowAcct := derive i,
    hostRatchetAcct := derive ((i + 1) % 2 ^ 32),
    guestRatchetAcct := derive ((i + 2) % 2 ^ 32),
    hostAmount := hostAmount,
    counterpartyAddress := guestFedAddr,
    remoteURL := starlightURL,
    roundNumber := 1,
    maxRoundDuration := st.maxRoundDurMin * 60,
    finalityDelay := st.finalityDelayMin * 60,
    channelFeerate := st.channelFeerate,
    hostFeerate := st.hostFeerate,
    fundingTime := now,
    paymentTime := now,
    passphrase := testNetworkPassphrase }

/-- The tail of the DoCreateChannel update (agent.go lines 685-730)
once the channel record ch has been built: reject a channel ID already
in use, debit the wallet by the setup-and-funding reserve (failing on
a negative result), store the channel and wallet, and feed the
CreateChannel command to the FSM, whose failure rolls the whole update
back. -/
def createChannelFund (reserve : Channel → Int) (fsmCmd : Except Err Unit)
    (st : AgentState) (hostURL : String) (ch : Channel) :
    AgentState × Except Err Channel :=
  if getChannelState st.channels ch.id ≠ .start then
    (st, .error (.wrap .channelExists))
  else if wrap64 (st.wallet.balance - reserve ch) < 0 then
    (st, .error (.wrap .insufficientBalance))
  else
    match fsmCmd with
    | .error e => (st, .error e)
    | .ok _ =>
      ({ st with
         wallet := { st.wallet with
                     balance := wrap64 (st.wallet.balance - reserve ch),
                     seqnum := wrap64 (st.wallet.seqnum + 3),
                     address := st.username ++ "*" ++ hostURL },
         channels := putChannelRec st.channels ch,
         nextKeypathIndex := (st.nextKeypathIndex + 3) % 2 ^ 32,
         updates := st.updates ++ [.channelRec] }, .ok ch)

/-- DoCreateChannel (agent.go lines 612-732). findAccount models
Agent.FindAccount, the federation lookup resolving a federation
address to an account address and a starlight URL; derive and now are
as in mkChannel; reserve models fsm.Channel.SetupAndFundingReserveAmount
(defined in the fsm package); fsmCmd is the outcome of feeding the
CreateChannel command to the FSM through doUpdateChannel. The
db.Update body either commits everything or, on error, nothing (spec
section 4.1), so every error path returns the input state unchanged.
On success the wallet is debited by the reserve, its sequence number
advanced by three, its federation address recorded, the next key path
index advanced by three (as a uint32), and the new channel stored. -/
def DoCreateChannel (findAccount : String → Except Err (String × String))
    (derive : Nat → String) (reserve : Channel → Int) (fsmCmd : Except Err Unit)
    (now : Int) (st : AgentState) (guestFedAddr : String) (hostAmount : Int)
    (hostURL : String) : AgentState × Except Err Channel :=
  if guestFedAddr = "" then (st, .error .emptyAddress)
  else if hostAmount = 0 then (st, .error .emptyAmount)
  else
    match findAccount guestFedAddr with
    | .error e => (st, .error (.wrap e))
    | .ok (guestAcctStr, starlightURL) =>
      if guestAcctStr = st.primaryAcct then (st, .error .acctsSame)
      else if channelPairExists st.channels st.primaryAcct guestAcctStr then
        (st, .error (.wrap .channelExists))
      else if ¬ 0 < st.wallet.seqnum then (st, .error .notFunded)
      else
        createChannelFund reserve fsmCmd st hostURL
          (mkChannel derive now st guestFedAddr hostAmount guestAcctStr starlightURL)

/-- When the resolution and uniqueness pre-checks pass and the wallet
is funded, DoCreateChannel runs the funding step on the channel built
by mkChannel. -/
theorem doCreateChannel_reaches_fund
    (findAccount : String → Except Err (String × String))
    (derive : Nat → String) (reserve : Channel → Int) (fsmCmd : Except Err Unit)
    (now : Int) (st : AgentState) (guestFedAddr hostURL : String) (hostAmount : Int)
    (guestAcctStr starlightURL : String)
    (hne : guestFedAddr ≠ "") (hamt : hostAmount ≠ 0)
    (hfed : findAccount guestFedAddr = .ok (guestAcctStr, starlightURL))
    (hneq : guestAcctStr ≠ st.primaryAcct)
    (hpair : channelPairExists st.channels st.primaryAcct guestAcctStr = false)
    (hfunded : 0 < st.wallet.seqnum) :
    DoCreateChannel findAccount derive reserve fsmCmd now st guestFedAddr hostAmount hostURL
      = createChannelFund reserve fsmCmd st hostURL
          (mkChannel derive now st guestFedAddr hostAmount guestAcctStr starlightURL) := by
  unfold DoCreateChannel
  rw [if_neg hne, if_neg hamt, hfed]
  simp only [if_neg hneq]
  rw [if_neg (by simp [hpair]), if_neg (not_not_intro hfunded)]

/-- Claim C4: when the federation lookup resolves the guest, a guest
account equal to the host's primary account makes DoCreateChannel fail
with the accounts-equal error, and an existing channel over the same
unordered account pair makes it fail with a wrapped channel-exists
error; in both cases the state, and so the stored channel set, is
unchanged. The hypothesis that no stored channel pairs an account with
itself is the spec's distinct-accounts invariant; without it a
degenerate record pairing the host account with itself would be
reported as accounts-equal instead. -/
theorem doCreateChannel_c4_rejects
    (findAccount : String → Except Err (String × String))
    (derive : Nat → String) (reserve : Channel → Int) (fsmCmd : Except Err Unit)
    (now : Int) (st : AgentState) (guestFedAddr hostURL : String) (hostAmount : Int)
    (guestAcctStr starlightURL : String)
    (hne : guestFedAddr ≠ "") (hamt : hostAmount ≠ 0)
    (hfed : findAccount guestFedAddr = .ok (guestAcctStr, starlightURL))
    (hdistinct : ∀ c ∈ st.channels, c.hostAcct ≠ c.guestAcct) :
    (guestAcctStr = st.primaryAcct →
      DoCreateChannel findAccount derive reserve fsmCmd now st guestFedAddr hostAmount hostURL
        = (st, .error .acctsSame)) ∧
    (channelPairExists st.channels st.primaryAcct guestAcctStr = true →
      DoCreateChannel findAccount derive reserve fsmCmd now st guestFedAddr hostAmount hostURL
        = (st, .error (.wrap .channelExists))) := by
  constructor
  · intro heq
    unfold DoCreateChannel
    rw [if_neg hne, if_neg hamt, hfed]
    simp only [if_pos heq]
  · intro hpair
    have hneq : guestAcctStr ≠ st.primaryAcct := by
      intro heq
      subst heq
      rcases List.any_eq_true.mp hpair with ⟨c, hc, hcond⟩
      rw [Bool.or_eq_true, Bool.and_eq_true, Bool.and_eq_true] at hcond
      rcases hcond with ⟨h1, h2⟩ | ⟨h1, h2⟩
      · exact hdistinct c hc ((of_decide_eq_true h1).symm.trans (of_decide_eq_true h2))
      · exact hdistinct c hc ((of_decide_eq_true h2).symm.trans (of_decide_eq_true h1))
    unfold DoCreateChannel
    rw [if_neg hne, if_neg hamt, hfed]
    simp only [if_neg hneq, if_pos hpair]

/-- Claim C4, witness: with one stored channel between GHOST and
GGUEST and primary account GHOST, resolving the guest to GHOST is
rejected as accounts-equal, and resolving it to GGUEST is rejected as
channel-exists, both leaving the state unchanged. -/
theorem doCreateChannel_c4_witness :
    DoCreateChannel (fun _ => .ok ("GHOST", "u")) (fun _ => "E") (fun _ => 0) (.ok ())
        0 { primaryAcct := "GHOST",
            channels := [{ id := "E0", hostAcct := "GHOST", guestAcct := "GGUEST" }] }
        "bob*ex" 5 "h.ex"
      = ({ primaryAcct := "GHOST",
           channels := [{ id := "E0", hostAcct := "GHOST", guestAcct := "GGUEST" }] },
         .error .acctsSame) ∧
    DoCreateChannel (fun _ => .ok ("GGUEST", "u")) (fun _ => "E") (fun _ => 0) (.ok ())
        0 { primaryAcct := "GHOST",
            channels := [{ id := "E0", hostAcct := "GHOST", guestAcct := "GGUEST" }] }
        "bob*ex" 5 "h.ex"
      = ({ primaryAcct := "GHOST",
           channels := [{ id := "E0", hostAcct := "GHOST", guestAcct := "GGUEST" }] },
         .error (.wrap .channelExists)) := by
  constructor
  · exact (doCreateChannel_c4_rejects (fun _ => .ok ("GHOST", "u")) (fun _ => "E")
      (fun _ => 0) (.ok ()) 0
      { primaryAcct := "GHOST",
        channels := [{ id := "E0", hostAcct := "GHOST", guestAcct := "GGUEST" }] }
      "bob*ex" "h.ex" 5 "GHOST" "u" (by decide) (by decide) rfl
      (by intro c hc; simp at hc; subst hc; decide)).1 rfl
  · exact (doCreateChannel_c4_rejects (fun _ => .ok ("GGUEST", "u")) (fun _ => "E")
      (fun _ => 0) (.ok ()) 0
      { primaryAcct := "GHOST",
        channels := [{ id := "E0", hostAcct := "GHOST", guestAcct := "GGUEST" }] }
      "bob*ex" "h.ex" 5 "GGUEST" "u" (by decide) (by decide) rfl
      (by intro c hc; simp at hc; subst hc; decide)).2 (by decide)

/-- Claim C5: once DoCreateChannel reaches the funding step, a wallet
balance strictly below the channel's setup-and-funding reserve amount
yields the insufficient-balance error with the durable state exactly
as before the call (wallet balance and sequence number, channel set,
next key index all unchanged, by the rollback of the update), while a
balance exactly equal to the reserve is sufficient: the call is not
rejected and succeeds with the wallet debited to zero. The bound
hypotheses keep the int64 subtraction away from overflow. -/
theorem doCreateChannel_c5_insufficient
    (findAccount : String → Except Err (String × String))
    (derive : Nat → String) (reserve : Channel → Int) (fsmCmd : Except Err Unit)
    (now : Int) (st : AgentState) (guestFedAddr hostURL : String) (hostAmount : Int)
    (guestAcctStr starlightURL : String) (ch : Channel)
    (hne : guestFedAddr ≠ "") (hamt : hostAmount ≠ 0)
    (hfed : findAccount guestFedAddr = .ok (guestAcctStr, starlightURL))
    (hneq : guestAcctStr ≠ st.primaryAcct)
    (hpair : channelPairExists st.channels st.primaryAcct guestAcctStr = false)
    (hfunded : 0 < st.wallet.seqnum)
    (hch : ch = mkChannel derive now st guestFedAddr hostAmount guestAcctStr starlightURL)
    (hfresh : getChannelState st.channels ch.id = .start)
    (hlo : -(2 ^ 61) ≤ st.wallet.balance - reserve ch)
    (hhi : st.wallet.balance - reserve ch ≤ 2 ^ 61) :
    (st.wallet.balance < reserve ch →
      DoCreateChannel findAccount derive reserve fsmCmd now st guestFedAddr hostAmount hostURL
        = (st, .error (.wrap .insufficientBalance))) ∧
    (st.wallet.balance = reserve ch → fsmCmd = .ok () →
      (DoCreateChannel findAccount derive reserve fsmCmd now st guestFedAddr hostAmount
          hostURL).2 = .ok ch ∧
      (DoCreateChannel findAccount derive reserve fsmCmd now st guestFedAddr hostAmount
          hostURL).1.wallet.balance = 0) := by
  have hred := doCreateChannel_reaches_fund findAccount derive reserve fsmCmd now st
    guestFedAddr hostURL hostAmount guestAcctStr starlightURL hne hamt hfed hneq hpair hfunded
  rw [← hch] at hred
  have hw : wrap64 (st.wallet.balance - reserve ch) = st.wallet.balance - reserve ch :=
    wrap64_eq_of_range _ (by omega) (by omega)
  constructor
  · intro hlt
    rw [hred]
    unfold createChannelFund
    rw [if_neg (not_not_intro hfresh), hw, if_pos (by omega)]
  · intro heq hfsm
    rw [hred]
    unfold createChannelFund
    rw [if_neg (not_not_intro hfresh), hw, if_neg (by omega), hfsm]
    exact ⟨rfl, by simp; omega⟩

/-- Claim C5, witness: a wallet holding 99 against a reserve of 100 is
rejected with the state unchanged, and a wallet holding exactly 100 is
accepted and debited to zero. -/
theorem doCreateChannel_c5_witness :
    DoCreateChannel (fun _ => .ok ("GG", "u")) (fun i => "E") (fun _ => 100) (.ok ()) 0
        { primaryAcct := "GH", wallet := { balance := 99, seqnum := 1 } } "bob*ex" 5 "h.ex"
      = ({ primaryAcct := "GH", wallet := { balance := 99, seqnum := 1 } },
         .error (.wrap .insufficientBalance)) ∧
    (DoCreateChannel (fun _ => .ok ("GG", "u")) (fun i => "E") (fun _ => 100) (.ok ()) 0
        { primaryAcct := "GH", wallet := { balance := 100, seqnum := 1 } } "bob*ex" 5
        "h.ex").1.wallet.balance = 0 := by
  constructor
  · exact (doCreateChannel_c5_insufficient (fun _ => .ok ("GG", "u")) (fun i => "E")
      (fun _ => 100) (.ok ()) 0
      { primaryAcct := "GH", wallet := { balance := 99, seqnum := 1 } } "bob*ex" "h.ex" 5
      "GG" "u"
      (mkChannel (fun i => "E") 0
        { primaryAcct := "GH", wallet := { balance := 99, seqnum := 1 } } "bob*ex" 5 "GG" "u")
      (by decide) (by decide) rfl (by decide) (by decide) (by decide) rfl rfl
      (by decide) (by decide)).1 (by decide)
  · exact ((doCreateChannel_c5_insufficient (fun _ => .ok ("GG", "u")) (fun i => "E")
      (fun _ => 100) (.ok ()) 0
      { primaryAcct := "GH", wallet := { balance := 100, seqnum := 1 } } "bob*ex" "h.ex" 5
      "GG" "u"
      (mkChannel (fun i => "E") 0
        { primaryAcct := "GH", wallet := { balance := 100, seqnum := 1 } } "bob*ex" 5 "GG" "u")
      (by decide) (by decide) rfl (by decide) (by decide) (by decide) rfl rfl
      (by decide) (by decide)).2 rfl rfl).2

/-- Claim C9: a successful DoCreateChannel call reads the stored next
key path index i, derives the escrow, host-ratchet and guest-ratchet
accounts at indices i, i plus one and i plus two respectively, and
persists the next key path index as i plus three, which in particular
never decreases; the uint32 counter is assumed not to wrap. -/
theorem doCreateChannel_c9_key_indices
    (findAccount : String → Except Err (String × String))
    (derive : Nat → String) (reserve : Channel → Int) (fsmCmd : Except Err Unit)
    (now : Int) (st : AgentState) (guestFedAddr hostURL : String) (hostAmount : Int)
    (guestAcctStr starlightURL : String) (ch : Channel)
    (hne : guestFedAddr ≠ "") (hamt : hostAmount ≠ 0)
    (hfed : findAccount guestFedAddr = .ok (guestAcctStr, starlightURL))
    (hneq : guestAcctStr ≠ st.primaryAcct)
    (hpair : channelPairExists st.channels st.primaryAcct guestAcctStr = false)
    (hfunded : 0 < st.wallet.seqnum)
    (hch : ch = mkChannel derive now st guestFedAddr hostAmount guestAcctStr starlightURL)
    (hfresh : getChannelState st.channels ch.id = .start)
    (hlo : -(2 ^ 61) ≤ st.wallet.balance - reserve ch)
    (hhi : st.wallet.balance - reserve ch ≤ 2 ^ 61)
    (hbal : reserve ch ≤ st.wallet.balance)
    (hfsm : fsmCmd = .ok ())
    (hidx : st.nextKeypathIndex + 3 < 2 ^ 32) :
    (DoCreateChannel findAccount derive reserve fsmCmd now st guestFedAddr hostAmount
        hostURL).2 = .ok ch ∧
    (DoCreateChannel findAccount derive reserve fsmCmd now st guestFedAddr hostAmount
        hostURL).1.nextKeypathIndex = st.nextKeypathIndex + 3 ∧
    ch.keyIndex = st.nextKeypathIndex ∧
    ch.escrowAcct = derive st.nextKeypathIndex ∧
    ch.hostRatchetAcct = derive (st.nextKeypathIndex + 1) ∧
    ch.guestRatchetAcct = derive (st.nextKeypathIndex + 2) ∧
    st.nextKeypathIndex ≤ (DoCreateChannel findAccount derive reserve fsmCmd now st
        guestFedAddr hostAmount hostURL).1.nextKeypathIndex := by
  have hred := doCreateChannel_reaches_fund findAccount derive reserve fsmCmd now st
    guestFedAddr hostURL hostAmount guestAcctStr starlightURL hne hamt hfed hneq hpair hfunded
  rw [← hch] at hred
  have hw : wrap64 (st.wallet.balance - reserve ch) = st.wallet.balance - reserve ch :=
    wrap64_eq_of_range _ (by omega) (by omega)
  have hstep : createChannelFund reserve fsmCmd st hostURL ch
      = ({ st with
           wallet := { st.wallet with
                       balance := wrap64 (st.wallet.balance - reserve ch),
                       seqnum := wrap64 (st.wallet.seqnum + 3),
                       address := st.username ++ "*" ++ hostURL },
           channels := putChannelRec st.channels ch,
           nextKeypathIndex := (st.nextKeypathIndex + 3) % 2 ^ 32,
           updates := st.updates ++ [.channelRec] }, .ok ch) := by
    unfold createChannelFund
    rw [if_neg (not_not_intro hfresh), hw, if_neg (by omega), hfsm]
  rw [hred, hstep]
  have hmod : (st.nextKeypathIndex + 3) % 2 ^ 32 = st.nextKeypathIndex + 3 :=
    Nat.mod_eq_of_lt hidx
  refine ⟨rfl, by simp; omega, ?_, ?_, ?_, ?_, by simp; omega⟩
  · rw [hch]; rfl
  · rw [hch]; rfl
  · rw [hch]
    show derive ((st.nextKeypathIndex + 1) % 2 ^ 32) = derive (st.nextKeypathIndex + 1)
    rw [Nat.mod_eq_of_lt (by omega)]
  · rw [hch]
    show derive ((st.nextKeypathIndex + 2) % 2 ^ 32) = derive (st.nextKeypathIndex + 2)
    rw [Nat.mod_eq_of_lt (by omega)]

/-- Claim C9, witness: starting from next key index 10, the created
channel uses indices 10, 11 and 12 and the stored counter advances to
13. -/
theorem doCreateChannel_c9_witness :
    (DoCreateChannel (fun _ => .ok ("GG", "u")) (fun i => "K" ++ toString i) (fun _ => 7)
        (.ok ()) 0
        { primaryAcct := "GH", nextKeypathIndex := 10,
          wallet := { balance := 50, seqnum := 1 } } "bob*ex" 5 "h.ex").1.nextKeypathIndex
      = 13 ∧
    (mkChannel (fun i => "K" ++ toString i) 0
        { primaryAcct := "GH", nextKeypathIndex := 10,
          wallet := { balance := 50, seqnum := 1 } } "bob*ex" 5 "GG" "u").escrowAcct
      = "K10" ∧
    (mkChannel (fun i => "K" ++ toString i) 0
        { primaryAcct := "GH", nextKeypathIndex := 10,
          wallet := { balance := 50, seqnum := 1 } } "bob*ex" 5 "GG" "u").hostRatchetAcct
      = "K11" ∧
    (mkChannel (fun i => "K" ++ toString i) 0
        { primaryAcct := "GH", nextKeypathIndex := 10,
          wallet := { balance := 50, seqnum := 1 } } "bob*ex" 5 "GG" "u").guestRatchetAcct
      = "K12" := by
  have h := doCreateChannel_c9_key_indices (fun _ => .ok ("GG", "u"))
    (fun i => "K" ++ toString i) (fun _ => 7) (.ok ()) 0
    { primaryAcct := "GH", nextKeypathIndex := 10,
      wallet := { balance := 50, seqnum := 1 } } "bob*ex" "h.ex" 5 "GG" "u"
    (mkChannel (fun i => "K" ++ toString i) 0
      { primaryAcct := "GH", nextKeypathIndex := 10,
        wallet := { balance := 50, seqnum := 1 } } "bob*ex" 5 "GG" "u")
    (by decide) (by decide) rfl (by decide) (by decide) (by decide) rfl rfl
    (by decide) (by decide) (by decide) rfl (by decide)
  obtain ⟨hA, hB, hC, hD, hE, hF, hG⟩ := h
  refine ⟨?_, ?_, ?_, ?_⟩
  · rw [hB]
  · rw [hD]; decide
  · rw [hE]; decide
  · rw [hF]; decide

/-- The fields of fsm.Message.ChannelProposeMsg that handleMsg reads. -/
structure ProposeMsg where
  hostAcct : String := ""
  guestAcct : String := ""
  hostRatchetAcct : String := ""
  guestRatchetAcct : String := ""
  counterpartyAddress : String := ""
  deriving DecidableEq

/-- The fsm.Message envelope as handleMsg inspects it: the channel ID
and, when the message is a channel proposal, its payload. The other
message kinds take the same dispatch path and carry nothing handleMsg
reads. -/
structure Message where
  channelID : String := ""
  proposeMsg : Option ProposeMsg := none
  deriving DecidableEq

/-- The error switch at the end of handleMsg (agent.go lines 923-935):
success leaves the default 200 status; an error whose root is
ErrExists or fsm.ErrChannelExists maps to 205 Reset Content,
designating a non-retriable error; anything else maps to 500. -/
def handleMsgDispatch : Except Err Unit → Nat
  | .ok _ => 200
  | .error e =>
    if e.root = .channelExists ∨ e.root = .fsmChannelExists then 205 else 500

/-- handleMsg (agent.go lines 863-936), returning the HTTP status
code. body is the JSON decoding of the request body (none on a decode
error); channels is the stored channel list read by
checkChannelUnique; validAddr models xdr.AccountId.SetAddress
succeeding on the channel ID; seqNums is the outcome of
getSequenceNumbers for the escrow and ratchet accounts; findAccount
models Agent.FindAccount, returning host account, starlight URL and
error exactly as the Go multi-value return does (the code checks the
empty URL before the error); processMsg is the outcome of dispatching
the message into the FSM through updateChannel. -/
def handleMsg (channels : List Channel) (validAddr : String → Bool)
    (seqNums : Except Err (Int × Int × Int))
    (findAccount : String → String × String × Option Err)
    (processMsg : Except Err Unit) (body : Option Message) : Nat :=
  match body with
  | none => 400
  | some m =>
    if m.channelID = "" then 400
    else
      match m.proposeMsg with
      | some p =>
        if channelPairExists channels p.hostAcct p.guestAcct then 205
        else if ¬ validAddr m.channelID then 400
        else
          match seqNums with
          | .error _ => 400
          | .ok _ =>
            match findAccount p.counterpartyAddress with
            | (hostAccount, starlightURL, ferr) =>
              if starlightURL = "" then 400
              else
                match ferr with
                | some _ => 400
                | none =>
                  if hostAccount ≠ p.hostAcct then 400
                  else handleMsgDispatch processMsg
      | none => handleMsgDispatch processMsg

/-- Claim C2: a request body that fails to decode, or whose channel ID
is empty, gets 400; a channel proposal over an account pair that
already has a channel gets 205; a channel proposal whose declared host
account differs from the federation lookup of its counterparty address
gets 400; otherwise the message is dispatched, and a processing error
whose root is ErrExists or fsm.ErrChannelExists gets 205, any other
processing error gets 500, and success gets the default 200. -/
theorem handleMsg_c2 (channels : List Channel) (validAddr : String → Bool)
    (seqNums : Except Err (Int × Int × Int))
    (findAccount : String → String × String × Option Err)
    (processMsg : Except Err Unit) :
    (handleMsg channels validAddr seqNums findAccount processMsg none = 400) ∧
    (∀ m : Message, m.channelID = "" →
      handleMsg channels validAddr seqNums findAccount processMsg (some m) = 400) ∧
    (∀ m p, m.channelID ≠ "" → m.proposeMsg = some p →
      channelPairExists channels p.hostAcct p.guestAcct = true →
      handleMsg channels validAddr seqNums findAccount processMsg (some m) = 205) ∧
    (∀ m p hostAccount starlightURL, m.channelID ≠ "" → m.proposeMsg = some p →
      channelPairExists channels p.hostAcct p.guestAcct = false →
      validAddr m.channelID = true →
      (∃ v, seqNums = .ok v) →
      findAccount p.counterpartyAddress = (hostAccount, starlightURL, none) →
      starlightURL ≠ "" →
      hostAccount ≠ p.hostAcct →
      handleMsg channels validAddr seqNums findAccount processMsg (some m) = 400) ∧
    (∀ m p hostAccount starlightURL, m.channelID ≠ "" → m.proposeMsg = some p →
      channelPairExists channels p.hostAcct p.guestAcct = false →
      validAddr m.channelID = true →
      (∃ v, seqNums = .ok v) →
      findAccount p.counterpartyAddress = (hostAccount, starlightURL, none) →
      starlightURL ≠ "" →
      hostAccount = p.hostAcct →
      handleMsg channels validAddr seqNums findAccount processMsg (some m)
        = handleMsgDispatch processMsg) ∧
    (∀ m : Message, m.channelID ≠ "" → m.proposeMsg = none →
      handleMsg channels validAddr seqNums findAccount processMsg (some m)
        = handleMsgDispatch processMsg) ∧
    (processMsg = .ok () → handleMsgDispatch processMsg = 200) ∧
    (∀ e, processMsg = .error e →
      (e.root = .channelExists ∨ e.root = .fsmChannelExists) →
      handleMsgDispatch processMsg = 205) ∧
    (∀ e, processMsg = .error e →
      ¬ (e.root = .channelExists ∨ e.root = .fsmChannelExists) →
      handleMsgDispatch processMsg = 500) := by
  refine ⟨rfl, ?_, ?_, ?_, ?_, ?_, ?_, ?_, ?_⟩
  · intro m hid
    simp [handleMsg, hid]
  · intro m p hid hprop hpair
    simp [handleMsg, hid, hprop, hpair]
  · intro m p hostAccount starlightURL hid hprop hpair hva hseq hfind hurl hne
    obtain ⟨v, hv⟩ := hseq
    simp [handleMsg, hid, hprop, hpair, hva, hv, hfind, hurl, hne]
  · intro m p hostAccount starlightURL hid hprop hpair hva hseq hfind hurl heq
    obtain ⟨v, hv⟩ := hseq
    simp [handleMsg, hid, hprop, hpair, hva, hv, hfind, hurl, heq]
  · intro m hid hprop
    simp [handleMsg, hid, hprop]
  · intro hok
    rw [hok]
    rfl
  · intro e herr hroot
    rw [herr]
    simp only [handleMsgDispatch]
    rw [if_pos hroot]
  · intro e herr hroot
    rw [herr]
    simp only [handleMsgDispatch]
    rw [if_neg hroot]

/-- Claim C2, witness covering each branch at concrete inputs: an
undecodable body, an empty channel ID, a duplicate proposal, a
proposal failing the federation cross-check, a proposal passing all
checks, a non-propose message, and the three dispatch outcomes. -/
theorem handleMsg_c2_witness :
    handleMsg [] (fun _ => true) (.ok (1, 2, 3)) (fun _ => ("GH", "u", none))
      (.ok ()) none = 400 ∧
    handleMsg [] (fun _ => true) (.ok (1, 2, 3)) (fun _ => ("GH", "u", none))
      (.ok ()) (some { channelID := "" }) = 400 ∧
    handleMsg [{ id := "E0", hostAcct := "GH", guestAcct := "GG" }] (fun _ => true)
      (.ok (1, 2, 3)) (fun _ => ("GH", "u", none)) (.ok ())
      (some { channelID := "E1",
              proposeMsg := some { hostAcct := "GH", guestAcct := "GG" } }) = 205 ∧
    handleMsg [] (fun _ => true) (.ok (1, 2, 3)) (fun _ => ("GOTHER", "u", none))
      (.ok ())
      (some { channelID := "E1",
              proposeMsg := some { hostAcct := "GH", guestAcct := "GG" } }) = 400 ∧
    handleMsg [] (fun _ => true) (.ok (1, 2, 3)) (fun _ => ("GH", "u", none))
      (.ok ())
      (some { channelID := "E1",
              proposeMsg := some { hostAcct := "GH", guestAcct := "GG" } }) = 200 ∧
    handleMsg [] (fun _ => true) (.ok (1, 2, 3)) (fun _ => ("GH", "u", none))
      (.error (.wrap .channelExists)) (some { channelID := "E1" }) = 205 ∧
    handleMsg [] (fun _ => true) (.ok (1, 2, 3)) (fun _ => ("GH", "u", none))
      (.error .fsmChannelExists) (some { channelID := "E1" }) = 205 ∧
    handleMsg [] (fun _ => true) (.ok (1, 2, 3)) (fun _ => ("GH", "u", none))
      (.error .notFunded) (some { channelID := "E1" }) = 500 := by
  refine ⟨?_, ?_, ?_, ?_, ?_, ?_, ?_, ?_⟩
  · exact (handleMsg_c2 [] (fun _ => true) (.ok (1, 2, 3)) (fun _ => ("GH", "u", none))
      (.ok ())).1
  · exact (handleMsg_c2 [] (fun _ => true) (.ok (1, 2, 3)) (fun _ => ("GH", "u", none))
      (.ok ())).2.1 { channelID := "" } rfl
  · exact (handleMsg_c2 [{ id := "E0", hostAcct := "GH", guestAcct := "GG" }]
      (fun _ => true) (.ok (1, 2, 3)) (fun _ => ("GH", "u", none)) (.ok ())).2.2.1
      { channelID := "E1", proposeMsg := some { hostAcct := "GH", guestAcct := "GG" } }
      { hostAcct := "GH", guestAcct := "GG" } (by decide) rfl (by decide)
  · exact (handleMsg_c2 [] (fun _ => true) (.ok (1, 2, 3))
      (fun _ => ("GOTHER", "u", none)) (.ok ())).2.2.2.1
      { channelID := "E1", proposeMsg := some { hostAcct := "GH", guestAcct := "GG" } }
      { hostAcct := "GH", guestAcct := "GG" } "GOTHER" "u" (by decide) rfl (by decide)
      rfl ⟨(1, 2, 3), rfl⟩ rfl (by decide) (by decide)
  · exact (handleMsg_c2 [] (fun _ => true) (.ok (1, 2, 3)) (fun _ => ("GH", "u", none))
      (.ok ())).2.2.2.2.1
      { channelID := "E1", proposeMsg := some { hostAcct := "GH", guestAcct := "GG" } }
      { hostAcct := "GH", guestAcct := "GG" } "GH" "u" (by decide) rfl (by decide)
      rfl ⟨(1, 2, 3), rfl⟩ rfl (by decide) rfl
  · exact (handleMsg_c2 [] (fun _ => true) (.ok (1, 2, 3)) (fun _ => ("GH", "u", none))
      (.error (.wrap .channelExists))).2.2.2.2.2.1 { channelID := "E1" } (by decide) rfl
  · exact (handleMsg_c2 [] (fun _ => true) (.ok (1, 2, 3)) (fun _ => ("GH", "u", none))
      (.error .fsmChannelExists)).2.2.2.2.2.1 { channelID := "E1" } (by decide) rfl
  · exact (handleMsg_c2 [] (fun _ => true) (.ok (1, 2, 3)) (fun _ => ("GH", "u", none))
      (.error .notFunded)).2.2.2.2.2.1 { channelID := "E1" } (by decide) rfl

end Starlight
